/-
Verification of the xqemu-manager launcher (`main.py`).

This file gives a shallow embedding of the two meaningful components of the
program — the settings store (`SettingsManager`) and the process controller
(`Xqemu`) — and proves the spec's claims about them.

Modelling choices, stated once here:

* The filesystem is a pair of predicates `pathExists` / `isdir` over path
  strings, mirroring the only two filesystem queries the program makes
  (`os.path.exists`, `os.path.isdir`).
* The Python dict `SettingsManager.settings` always holds exactly the eight
  keys fixed by `reset` (the form and the launcher read and write only those),
  so it is embedded as a record `Settings` with those fields in the source's
  key order.
* `json.dumps(..., indent=2)` and `json.loads` are library calls external to
  the repository; they are modelled by an executable serializer
  (`dumpsSettings`, reproducing the indent-2 layout for a flat dict of strings
  and booleans) and an executable parser (`loadsSettings`) for that same flat
  fragment of JSON.
* Process spawning is modelled by a `World` that records every argv handed to
  `subprocess.Popen` and every handle passed to `terminate`; a handle is the
  index of its spawn in that record.
* Python's `str.split()` (no separator) is modelled by `pySplit`:
  split on runs of ASCII whitespace, dropping empty chunks.
-/
import Mathlib

set_option autoImplicit false
set_option maxRecDepth 8192

/-! ### Filesystem model and `check_path` -/

/-- The two filesystem queries the program makes, as predicates on paths. -/
structure FileSystem where
  pathExists : String → Bool
  isdir : String → Bool

/-- `Xqemu.start.check_path`:
`if not os.path.exists(path) or os.path.isdir(path): raise Exception('File %s could not be found!' % path)`. -/
def check_path (fs : FileSystem) (path : String) : Except String Unit :=
  if !fs.pathExists path || fs.isdir path then
    .error ("File " ++ path ++ " could not be found!")
  else
    .ok ()

/-! ### The settings record and its defaults -/

/-- The eight settings keys fixed by `SettingsManager.reset`, in source order. -/
structure Settings where
  xqemu_path : String
  mcpx_path : String
  flash_path : String
  hdd_path : String
  hdd_locked : Bool
  dvd_present : Bool
  dvd_path : String
  short_anim : Bool
deriving DecidableEq, Repr

/-- The literal default dict assigned by `SettingsManager.reset`. -/
def defaultSettings : Settings :=
  { xqemu_path := "/path/to/xqemu"
  , mcpx_path := "/path/to/mcpx.bin"
  , flash_path := "/path/to/flash.bin"
  , hdd_path := "/path/to/hdd.img"
  , hdd_locked := true
  , dvd_present := true
  , dvd_path := "/path/to/disc.iso"
  , short_anim := false }

/-! ### JSON values, serialization (`json.dumps(..., indent=2)`) -/

/-- JSON values that can occur in the settings file: strings and booleans. -/
inductive JValue where
  | jstr : String → JValue
  | jbool : Bool → JValue
deriving DecidableEq, Repr

/-- Escape one character the way `json.dumps` does inside a string literal
(backslash, quote, the short control escapes, `\uXXXX` for other controls). -/
def escapeJsonChar (c : Char) : List Char :=
  if c = '\x22' then ['\\', '\x22']
  else if c = '\\' then ['\\', '\\']
  else if c = '\n' then ['\\', 'n']
  else if c = '\t' then ['\\', 't']
  else if c = '\x0d' then ['\\', 'r']
  else if c = '\x08' then ['\\', 'b']
  else if c = '\x0c' then ['\\', 'f']
  else if c.toNat < 32 then
    ['\\', 'u', '0', '0',
     (Nat.digitChar (c.toNat / 16)), (Nat.digitChar (c.toNat % 16))]
  else [c]

/-- Serialize a JSON string literal, quotes included. -/
def dumpJString (s : String) : String :=
  "\x22" ++ String.mk (s.toList.flatMap escapeJsonChar) ++ "\x22"

/-- Serialize one JSON value of the settings fragment. -/
def dumpJValue : JValue → String
  | .jstr s => dumpJString s
  | .jbool true => "true"
  | .jbool false => "false"

/-- The settings dict as an ordered key/value list, in the order `reset` writes it. -/
def settingsPairs (s : Settings) : List (String × JValue) :=
  [ ("xqemu_path", .jstr s.xqemu_path)
  , ("mcpx_path", .jstr s.mcpx_path)
  , ("flash_path", .jstr s.flash_path)
  , ("hdd_path", .jstr s.hdd_path)
  , ("hdd_locked", .jbool s.hdd_locked)
  , ("dvd_present", .jbool s.dvd_present)
  , ("dvd_path", .jstr s.dvd_path)
  , ("short_anim", .jbool s.short_anim) ]

/-- `json.dumps(self.settings, indent=2)` for a flat dict: opening brace, each
member on its own line indented two spaces, members separated by commas. -/
def dumpsPairs (ps : List (String × JValue)) : String :=
  "\x7b\n" ++
    String.intercalate ",\n"
      (ps.map fun kv => "  " ++ dumpJString kv.1 ++ ": " ++ dumpJValue kv.2) ++
  "\n\x7d"

/-- The exact file content `SettingsManager.save` writes for a record `s`. -/
def dumpsSettings (s : Settings) : String :=
  dumpsPairs (settingsPairs s)

/-! ### JSON parsing (`json.loads`) for the settings fragment -/

/-- Whitespace `json.loads` skips between tokens. -/
def isJsonWs (c : Char) : Bool :=
  c = ' ' || c = '\t' || c = '\n' || c = '\x0d'

/-- Drop leading JSON whitespace. -/
def skipJsonWs : List Char → List Char
  | [] => []
  | c :: cs => if isJsonWs c then skipJsonWs cs else c :: cs

/-- Value of one hex digit, for `\uXXXX` escapes. -/
def hexVal (c : Char) : Option Nat :=
  if '0' ≤ c ∧ c ≤ '9' then some (c.toNat - 48)
  else if 'a' ≤ c ∧ c ≤ 'f' then some (c.toNat - 87)
  else if 'A' ≤ c ∧ c ≤ 'F' then some (c.toNat - 55)
  else none

/-- Decode one short escape character. -/
def unescapeJsonChar (e : Char) : Option Char :=
  if e = '\x22' then some '\x22'
  else if e = '\\' then some '\\'
  else if e = '/' then some '/'
  else if e = 'n' then some '\n'
  else if e = 't' then some '\t'
  else if e = 'r' then some '\x0d'
  else if e = 'b' then some '\x08'
  else if e = 'f' then some '\x0c'
  else none

/-- Parse the body of a JSON string literal after its opening quote, returning
the decoded characters and the input after the closing quote. -/
def parseJStringAux : List Char → Option (List Char × List Char)
  | [] => none
  | '\\' :: 'u' :: h1 :: h2 :: h3 :: h4 :: rest => do
      let d1 ← hexVal h1
      let d2 ← hexVal h2
      let d3 ← hexVal h3
      let d4 ← hexVal h4
      let (cs, r) ← parseJStringAux rest
      pure (Char.ofNat (((d1 * 16 + d2) * 16 + d3) * 16 + d4) :: cs, r)
  | '\\' :: e :: rest => do
      let c ← unescapeJsonChar e
      let (cs, r) ← parseJStringAux rest
      pure (c :: cs, r)
  | c :: rest =>
      if c = '\x22' then some ([], rest)
      else do
        let (cs, r) ← parseJStringAux rest
        pure (c :: cs, r)

/-- Parse one JSON value of the settings fragment: a string or a boolean. -/
def parseJValue (l : List Char) : Option (JValue × List Char) :=
  match l with
  | 't' :: 'r' :: 'u' :: 'e' :: rest => some (.jbool true, rest)
  | 'f' :: 'a' :: 'l' :: 's' :: 'e' :: rest => some (.jbool false, rest)
  | '\x22' :: rest => do
      let (cs, r) ← parseJStringAux rest
      pure (.jstr (String.mk cs), r)
  | _ => none

/-- Parse the members of a non-empty JSON object: `"key": value` pairs
separated by commas, up to and including the closing brace. -/
def parseJMembers (fuel : Nat) (l : List Char) : Option (List (String × JValue) × List Char) :=
  match fuel with
  | 0 => none
  | fuel + 1 =>
    match skipJsonWs l with
    | '\x22' :: r1 => do
        let (k, r2) ← parseJStringAux r1
        match skipJsonWs r2 with
        | ':' :: r3 => do
            let (v, r4) ← parseJValue (skipJsonWs r3)
            match skipJsonWs r4 with
            | ',' :: r5 => do
                let (rest, r6) ← parseJMembers fuel r5
                pure ((String.mk k, v) :: rest, r6)
            | '\x7d' :: r5 => pure ([(String.mk k, v)], r5)
            | _ => none
        | _ => none
    | _ => none

/-- Parse a JSON object from the head of the input. -/
def parseJObject (l : List Char) : Option (List (String × JValue) × List Char) :=
  match skipJsonWs l with
  | '\x7b' :: r =>
      match skipJsonWs r with
      | '\x7d' :: r2 => some ([], r2)
      | _ => parseJMembers (r.length + 1) r
  | _ => none

/-- `json.loads` on a whole document of the settings fragment. -/
def loadsPairs (s : String) : Option (List (String × JValue)) := do
  let (ps, r) ← parseJObject s.toList
  if skipJsonWs r = [] then pure ps else none

/-- Read a JSON value as a path string. -/
def JValue.asStr : JValue → Option String
  | .jstr s => some s
  | .jbool _ => none

/-- Read a JSON value as a boolean flag. -/
def JValue.asBool : JValue → Option Bool
  | .jbool b => some b
  | .jstr _ => none

/-- Rebuild the `Settings` record from a parsed dict (the dict always holds
exactly the eight fixed keys; see the header note). -/
def pairsToSettings (ps : List (String × JValue)) : Option Settings := do
  let xq ← (ps.lookup "xqemu_path").bind JValue.asStr
  let mc ← (ps.lookup "mcpx_path").bind JValue.asStr
  let fl ← (ps.lookup "flash_path").bind JValue.asStr
  let hd ← (ps.lookup "hdd_path").bind JValue.asStr
  let hl ← (ps.lookup "hdd_locked").bind JValue.asBool
  let dp ← (ps.lookup "dvd_present").bind JValue.asBool
  let dv ← (ps.lookup "dvd_path").bind JValue.asStr
  let sa ← (ps.lookup "short_anim").bind JValue.asBool
  pure { xqemu_path := xq, mcpx_path := mc, flash_path := fl, hdd_path := hd
       , hdd_locked := hl, dvd_present := dp, dvd_path := dv, short_anim := sa }

/-- Full deserialization of a settings file content. -/
def loadsSettings (s : String) : Option Settings :=
  (loadsPairs s).bind pairsToSettings

/-! ### The settings store (`SettingsManager`) -/

/-- The store: holds the current settings record. -/
structure SettingsManager where
  settings : Settings
deriving DecidableEq, Repr

/-- The on-disk settings file: `none` when `./settings.json` does not exist. -/
structure Disk where
  settingsFile : Option String
deriving DecidableEq, Repr

/-- `SettingsManager.reset`: overwrite the record with the hard-coded defaults. -/
def SettingsManager.reset (_m : SettingsManager) : SettingsManager :=
  ⟨defaultSettings⟩

/-- `SettingsManager.save`: write `json.dumps(self.settings, indent=2)` to the
settings file, overwriting it. -/
def SettingsManager.save (m : SettingsManager) (_d : Disk) : Disk :=
  ⟨some (dumpsSettings m.settings)⟩

/-- `SettingsManager.load`: if the settings file exists, replace the record
wholesale with its parsed content (a parse failure propagates); otherwise
behave as `reset`. -/
def SettingsManager.load (m : SettingsManager) (d : Disk) : Except String SettingsManager :=
  match d.settingsFile with
  | some content =>
      match loadsSettings content with
      | some s => .ok ⟨s⟩
      | none => .error "settings file could not be parsed"
  | none => .ok (m.reset)

/-! ### `str.split()` (no separator) -/

/-- The ASCII whitespace characters `str.split()` splits on. -/
def isPyWs (c : Char) : Bool :=
  c = ' ' || c = '\t' || c = '\n' || c = '\x0d' || c = '\x0b' || c = '\x0c'

/-- Word splitter: `wordsAux acc l` scans `l` with the reversed current word
in `acc`, emitting a word at each whitespace run and at the end. -/
def wordsAux (acc : List Char) : List Char → List (List Char)
  | [] => if acc.isEmpty then [] else [acc.reverse]
  | c :: cs =>
      if isPyWs c then
        if acc.isEmpty then wordsAux [] cs
        else acc.reverse :: wordsAux [] cs
      else wordsAux (c :: acc) cs

/-- Python's `cmd.split()`: split on runs of whitespace, no empty chunks. -/
def pySplit (s : String) : List String :=
  (wordsAux [] s.toList).map fun cs => String.mk cs

/-! ### The process controller (`Xqemu`) -/

/-- The interpolated launch command. The string literal in `start` uses
backslash-newline continuations, so each fragment ends with a space and the
next begins with the three tabs that indent the continuation line. -/
def buildCmd (xq mc anim fl hd dvd : String) : String :=
  xq ++ " \t\t\t-cpu pentium3 \t\t\t-machine xbox,bootrom=" ++ mc ++ anim ++
  " -m 64 \t\t\t-bios " ++ fl ++
  " \t\t\t-net nic,model=nvnet -net user \t\t\t-monitor stdio \t\t\t-drive file=" ++
  hd ++ ",index=0,media=disk \t\t\t-drive index=1,media=cdrom" ++ dvd

/-- The validation and command-construction part of `Xqemu.start`: the four
unconditional `check_path` calls in source order, the short-animation suffix,
the optional disc check and `,file=` argument, then the interpolated command.
The first failing check wins, as the first raised exception does. -/
def validateAndBuild (fs : FileSystem) (s : Settings) : Except String String :=
  match check_path fs s.xqemu_path with
  | .error e => .error e
  | .ok _ =>
  match check_path fs s.mcpx_path with
  | .error e => .error e
  | .ok _ =>
  match check_path fs s.flash_path with
  | .error e => .error e
  | .ok _ =>
  match check_path fs s.hdd_path with
  | .error e => .error e
  | .ok _ =>
  let short_anim_arg := if s.short_anim then ",short_animation" else ""
  if s.dvd_present then
    match check_path fs s.dvd_path with
    | .error e => .error e
    | .ok _ =>
        .ok (buildCmd s.xqemu_path s.mcpx_path short_anim_arg s.flash_path
              s.hdd_path (",file=" ++ s.dvd_path))
  else
    .ok (buildCmd s.xqemu_path s.mcpx_path short_anim_arg s.flash_path
          s.hdd_path "")

/-- The process controller state: `self._p`, the retained handle or `None`. -/
structure Xqemu where
  _p : Option Nat
deriving DecidableEq, Repr

/-- The observable process effects: every argv handed to `subprocess.Popen`
(in order; a handle is the index of its spawn) and every handle on which
`terminate` was called. -/
structure World where
  spawned : List (List String)
  terminated : List Nat
deriving DecidableEq, Repr

/-- `subprocess.Popen(argv)`: spawn a process, return its fresh handle. -/
def popen (w : World) (argv : List String) : World × Nat :=
  ({ w with spawned := w.spawned ++ [argv] }, w.spawned.length)

/-- `p.terminate()` on handle `h`. -/
def terminate (w : World) (h : Nat) : World :=
  { w with terminated := w.terminated ++ [h] }

/-- `Xqemu.start(settings)`: validate the configured paths, build the command,
then `self._p = subprocess.Popen(cmd.split())`. The method never reads the
previously retained handle; on success the new controller state holds the
fresh handle unconditionally. On an error nothing is spawned and the world is
returned unchanged. -/
def Xqemu.start (fs : FileSystem) (sm : SettingsManager) (w : World) :
    World × Except String Xqemu :=
  match validateAndBuild fs sm.settings with
  | .error e => (w, .error e)
  | .ok cmd =>
      let pr := popen w (pySplit cmd)
      (pr.1, .ok { _p := some pr.2 })

/-- `Xqemu.stop`: if a handle is retained, terminate it and clear it; no-op
otherwise. -/
def Xqemu.stop (x : Xqemu) (w : World) : Xqemu × World :=
  match x._p with
  | some h => ({ _p := none }, terminate w h)
  | none => (x, w)

/-- `Xqemu.isRunning`: `self._p is not None`. By its very type it consults
only the retained handle, never the world (no OS-level liveness). -/
def Xqemu.isRunning (x : Xqemu) : Bool :=
  x._p.isSome

/-- `MainWindow.onRunButtonClicked`, start branch: call `start` under
`try/except`; on an exception the controller state is left as it was and the
error message is shown. Returns (controller, world, displayed error). -/
def runStart (x : Xqemu) (fs : FileSystem) (sm : SettingsManager) (w : World) :
    Xqemu × World × Option String :=
  match Xqemu.start fs sm w with
  | (w', .ok x') => (x', w', none)
  | (w', .error e) => (x, w', some e)

/-! ### Lemmas about `wordsAux` and `pySplit` -/

theorem toList_empty : ("" : String).toList = [] := rfl

/-- Scanning a whitespace-free block just extends the current word. -/
theorem wordsAux_append_nonws :
    ∀ (u : List Char), (∀ c ∈ u, isPyWs c = false) →
      ∀ (acc rest : List Char), wordsAux acc (u ++ rest) = wordsAux (u.reverse ++ acc) rest
  | [], _, acc, rest => by simp
  | c :: u, hu, acc, rest => by
      have hc : isPyWs c = false := hu c (List.mem_cons_self c u)
      have ih := wordsAux_append_nonws u (fun d hd => hu d (List.mem_cons_of_mem c hd))
        (c :: acc) rest
      simp only [List.cons_append, wordsAux, hc, Bool.false_eq_true, if_false]
      have hl : (c :: u).reverse ++ acc = u.reverse ++ (c :: acc) := by simp
      rw [hl]
      exact ih

/-- A nonempty whitespace-free input is a single word. -/
theorem wordsAux_nil_word (u : List Char) (hu : ∀ c ∈ u, isPyWs c = false) (hne : u ≠ []) :
    wordsAux [] u = [u] := by
  have h := wordsAux_append_nonws u hu [] []
  rw [List.append_nil, List.append_nil] at h
  rw [h]
  have hrev : u.reverse.isEmpty = false := by
    simp [List.isEmpty_eq_false, hne]
  simp [wordsAux, hrev]

theorem getLast?_cons_of_getLast? {α : Type} {t : List α} {b : α} (a : α)
    (h : t.getLast? = some b) : (a :: t).getLast? = some b := by
  cases t with
  | nil => simp at h
  | cons x xs => rw [List.getLast?_cons_cons]; exact h

/-- The last word of `l ++ sp :: u` is `u` when `sp` is whitespace and `u` is a
nonempty whitespace-free block, whatever `l` and the scan state are. -/
theorem getLast?_wordsAux (u : List Char) (hu : ∀ c ∈ u, isPyWs c = false) (hne : u ≠ [])
    (sp : Char) (hsp : isPyWs sp = true) :
    ∀ (l acc : List Char), (wordsAux acc (l ++ sp :: u)).getLast? = some u := by
  intro l
  induction l with
  | nil =>
      intro acc
      rw [List.nil_append]
      simp only [wordsAux, hsp, if_true]
      cases ha : acc.isEmpty
      · simp only [ha, Bool.false_eq_true, if_false]
        exact getLast?_cons_of_getLast? _ (by simp [wordsAux_nil_word u hu hne])
      · simp [ha, wordsAux_nil_word u hu hne]
  | cons c l ih =>
      intro acc
      rw [List.cons_append]
      simp only [wordsAux]
      cases hc : isPyWs c
      · simp only [hc, Bool.false_eq_true, if_false]
        exact ih (c :: acc)
      · simp only [hc, if_true]
        cases ha : acc.isEmpty
        · simp only [ha, Bool.false_eq_true, if_false]
          exact getLast?_cons_of_getLast? _ (ih [])
        · simp only [ha, if_true]
          exact ih []

/-- Some word of `l ++ v ++ sp :: rest` has the whitespace-free block `v` as a
suffix (the word that ends exactly at `sp`). -/
theorem exists_suffix_wordsAux (v : List Char) (hv : ∀ c ∈ v, isPyWs c = false)
    (hne : v ≠ []) (sp : Char) (hsp : isPyWs sp = true) :
    ∀ (l acc rest : List Char), ∃ a ∈ wordsAux acc (l ++ (v ++ sp :: rest)), v <:+ a := by
  intro l
  induction l with
  | nil =>
      intro acc rest
      rw [List.nil_append, wordsAux_append_nonws v hv acc (sp :: rest)]
      simp only [wordsAux, hsp, if_true]
      have hvne : (v.reverse ++ acc).isEmpty = false := by
        simp [List.isEmpty_eq_false, hne]
      simp only [hvne, Bool.false_eq_true, if_false]
      refine ⟨(v.reverse ++ acc).reverse, List.mem_cons_self _ _, ?_⟩
      rw [List.reverse_append, List.reverse_reverse]
      exact List.suffix_append _ _
  | cons c l ih =>
      intro acc rest
      rw [List.cons_append]
      simp only [wordsAux]
      cases hc : isPyWs c
      · simp only [hc, Bool.false_eq_true, if_false]
        exact ih (c :: acc) rest
      · simp only [hc, if_true]
        cases ha : acc.isEmpty
        · simp only [ha, Bool.false_eq_true, if_false]
          obtain ⟨a, hm, hs⟩ := ih [] rest
          exact ⟨a, List.mem_cons_of_mem _ hm, hs⟩
        · simp only [ha, if_true]
          exact ih [] rest

/-- `buildCmd` at the character level. -/
theorem toList_buildCmd (xq mc anim fl hd dvd : String) :
    (buildCmd xq mc anim fl hd dvd).toList
      = xq.toList ++ (" \t\t\t-cpu pentium3 \t\t\t-machine xbox,bootrom=").toList
        ++ mc.toList ++ anim.toList ++ (" -m 64 \t\t\t-bios ").toList ++ fl.toList
        ++ (" \t\t\t-net nic,model=nvnet -net user \t\t\t-monitor stdio \t\t\t-drive file=").toList
        ++ hd.toList
        ++ (",index=0,media=disk \t\t\t-drive index=1,media=cdrom").toList
        ++ dvd.toList := by
  simp [buildCmd, String.toList, String.data_append, List.append_assoc]

/-- Whatever the configured paths are, the last element of the split command
with an empty disc argument is the bare secondary-drive declaration. -/
theorem getLast?_pySplit_buildCmd (xq mc anim fl hd : String) :
    (pySplit (buildCmd xq mc anim fl hd "")).getLast? = some "index=1,media=cdrom" := by
  unfold pySplit
  rw [List.getLast?_map]
  have hd4 : (",index=0,media=disk \t\t\t-drive index=1,media=cdrom").toList
      = (",index=0,media=disk \t\t\t-drive").toList
        ++ ' ' :: ("index=1,media=cdrom").toList := by decide
  have hL : (buildCmd xq mc anim fl hd "").toList
      = (xq.toList ++ (" \t\t\t-cpu pentium3 \t\t\t-machine xbox,bootrom=").toList
          ++ mc.toList ++ anim.toList ++ (" -m 64 \t\t\t-bios ").toList ++ fl.toList
          ++ (" \t\t\t-net nic,model=nvnet -net user \t\t\t-monitor stdio \t\t\t-drive file=").toList
          ++ hd.toList ++ (",index=0,media=disk \t\t\t-drive").toList)
        ++ ' ' :: ("index=1,media=cdrom").toList := by
    rw [toList_buildCmd, hd4, toList_empty]
    simp [List.append_assoc]
  rw [hL, getLast?_wordsAux ("index=1,media=cdrom").toList (by decide) (by decide) ' '
    (by decide)]
  rfl

/-- Whatever the configured paths are, some element of the split command
carries the short-animation suffix whenever it was interpolated. -/
theorem shortAnim_mem_pySplit_buildCmd (xq mc fl hd dvd : String) :
    ∃ a ∈ pySplit (buildCmd xq mc ",short_animation" fl hd dvd),
      (",short_animation").toList <:+ a.toList := by
  unfold pySplit
  have h2 : (" -m 64 \t\t\t-bios ").toList = ' ' :: ("-m 64 \t\t\t-bios ").toList := by decide
  have hL : (buildCmd xq mc ",short_animation" fl hd dvd).toList
      = (xq.toList ++ (" \t\t\t-cpu pentium3 \t\t\t-machine xbox,bootrom=").toList ++ mc.toList)
        ++ ((",short_animation").toList
          ++ ' ' :: (("-m 64 \t\t\t-bios ").toList ++ fl.toList
            ++ (" \t\t\t-net nic,model=nvnet -net user \t\t\t-monitor stdio \t\t\t-drive file=").toList
            ++ hd.toList
            ++ (",index=0,media=disk \t\t\t-drive index=1,media=cdrom").toList
            ++ dvd.toList)) := by
    rw [toList_buildCmd, h2]
    simp [List.append_assoc]
  rw [hL]
  obtain ⟨a, hm, hs⟩ := exists_suffix_wordsAux (",short_animation").toList (by decide)
    (by decide) ' ' (by decide) _ [] _
  exact ⟨String.mk a, List.mem_map_of_mem _ hm, hs⟩

/-! ### The claims -/

/-- C7: starting from any store state, `reset()` then `save()` then `load()`
yields a settings record field-for-field equal to the one produced by
`reset()` alone: the defaults survive the JSON serialize/deserialize round
trip through the settings file. -/
theorem defaults_roundtrip (m : SettingsManager) (d : Disk) :
    SettingsManager.load (m.reset) (SettingsManager.save (m.reset) d) = .ok (m.reset) := by
  have h : loadsSettings (dumpsSettings defaultSettings) = some defaultSettings := by decide
  show SettingsManager.load ⟨defaultSettings⟩ ⟨some (dumpsSettings defaultSettings)⟩
      = .ok ⟨defaultSettings⟩
  simp [SettingsManager.load, h]

/-- C8: when the settings file does not exist, `load()` leaves the store in
exactly the state produced by `reset()`, whatever the prior store state was. -/
theorem load_missing_file_resets (m : SettingsManager) (d : Disk)
    (h : d.settingsFile = none) :
    SettingsManager.load m d = .ok (m.reset) := by
  simp [SettingsManager.load, h]

theorem load_missing_file_resets_witness :
    SettingsManager.load ⟨defaultSettings⟩ ⟨none⟩ = .ok ⟨defaultSettings⟩ :=
  load_missing_file_resets ⟨defaultSettings⟩ ⟨none⟩ rfl

/-- C10: two configurations that differ only in `hdd_locked` produce the very
same `start` behaviour — the same validation outcome, the same command line,
the same spawn — both at the controller level and through the run button
handler: `hdd_locked` is never read during launch. -/
theorem hdd_locked_noninterference (x : Xqemu) (fs : FileSystem) (s : Settings)
    (w : World) (b : Bool) :
    Xqemu.start fs ⟨{ s with hdd_locked := b }⟩ w = Xqemu.start fs ⟨s⟩ w
    ∧ runStart x fs ⟨{ s with hdd_locked := b }⟩ w = runStart x fs ⟨s⟩ w :=
  ⟨rfl, rfl⟩

/-- The filesystem for C9: every path exists and none is a directory. -/
def c9fs : FileSystem := ⟨fun _ => true, fun _ => false⟩

/-- The configuration for C9: defaults, except the hard-disk image path
contains a space and no disc is present. -/
def c9sm : SettingsManager :=
  ⟨{ defaultSettings with hdd_path := "/path/to/my hdd.img", dvd_present := false }⟩

/-- The argument vector C9's start call hands to `subprocess.Popen`. -/
def c9argv : List String :=
  ["/path/to/xqemu", "-cpu", "pentium3", "-machine", "xbox,bootrom=/path/to/mcpx.bin",
   "-m", "64", "-bios", "/path/to/flash.bin", "-net", "nic,model=nvnet", "-net", "user",
   "-monitor", "stdio", "-drive", "file=/path/to/my", "hdd.img,index=0,media=disk",
   "-drive", "index=1,media=cdrom"]

/-- C9: a configuration that passes all path checks but whose `hdd_path`
contains a space is spawned with that path split across two argv entries
(`file=/path/to/my` and `hdd.img,index=0,media=disk`); no single argument
carries the intended `file=<path>,index=0,media=disk`. -/
theorem cmdline_splits_path_with_space :
    (Xqemu.start c9fs c9sm ⟨[], []⟩).2 = .ok ⟨some 0⟩
    ∧ (Xqemu.start c9fs c9sm ⟨[], []⟩).1.spawned = [c9argv]
    ∧ "file=/path/to/my" ∈ c9argv
    ∧ "hdd.img,index=0,media=disk" ∈ c9argv
    ∧ ∀ a ∈ c9argv, a ≠ "file=/path/to/my hdd.img,index=0,media=disk" :=
  ⟨rfl, by decide, by decide, by decide, by decide⟩

/-- C2: with the four required paths valid, a disc marked present and a disc
path that does not exist, the run action fails with the missing-path error
naming the disc path, spawns nothing (the world is unchanged) and leaves the
controller's retained handle unchanged. -/
theorem start_missing_dvd_fails (x : Xqemu) (fs : FileSystem) (sm : SettingsManager)
    (w : World)
    (h1 : check_path fs sm.settings.xqemu_path = .ok ())
    (h2 : check_path fs sm.settings.mcpx_path = .ok ())
    (h3 : check_path fs sm.settings.flash_path = .ok ())
    (h4 : check_path fs sm.settings.hdd_path = .ok ())
    (hdvd : sm.settings.dvd_present = true)
    (hmiss : fs.pathExists sm.settings.dvd_path = false) :
    runStart x fs sm w
      = (x, w, some ("File " ++ sm.settings.dvd_path ++ " could not be found!")) := by
  have hdmiss : check_path fs sm.settings.dvd_path
      = .error ("File " ++ sm.settings.dvd_path ++ " could not be found!") := by
    simp [check_path, hmiss]
  have hv : validateAndBuild fs sm.settings
      = .error ("File " ++ sm.settings.dvd_path ++ " could not be found!") := by
    simp [validateAndBuild, h1, h2, h3, h4, hdvd, hdmiss]
  simp [runStart, Xqemu.start, hv]

theorem start_missing_dvd_fails_witness :
    runStart ⟨none⟩ ⟨fun p => !(p == "/path/to/disc.iso"), fun _ => false⟩
        ⟨defaultSettings⟩ ⟨[], []⟩
      = (⟨none⟩, ⟨[], []⟩, some "File /path/to/disc.iso could not be found!") :=
  start_missing_dvd_fails ⟨none⟩ ⟨fun p => !(p == "/path/to/disc.iso"), fun _ => false⟩
    ⟨defaultSettings⟩ ⟨[], []⟩ rfl rfl rfl rfl rfl rfl

/-- C4: a configuration whose emulator path is an existing directory fails the
run action with the missing-path error naming it, and spawns nothing; and the
validation predicate accepts a path exactly when it exists and is not a
directory. -/
theorem start_rejects_directory (x : Xqemu) (fs : FileSystem) (sm : SettingsManager)
    (w : World) (fs' : FileSystem) (p : String)
    (hex : fs.pathExists sm.settings.xqemu_path = true)
    (hdir : fs.isdir sm.settings.xqemu_path = true) :
    runStart x fs sm w
      = (x, w, some ("File " ++ sm.settings.xqemu_path ++ " could not be found!"))
    ∧ (check_path fs' p = .ok () ↔ fs'.pathExists p = true ∧ fs'.isdir p = false) := by
  constructor
  · have hv : validateAndBuild fs sm.settings
        = .error ("File " ++ sm.settings.xqemu_path ++ " could not be found!") := by
      simp [validateAndBuild, check_path, hex, hdir]
    simp [runStart, Xqemu.start, hv]
  · unfold check_path
    cases he : fs'.pathExists p <;> cases hd : fs'.isdir p <;> simp

theorem start_rejects_directory_witness :
    runStart ⟨none⟩ ⟨fun _ => true, fun p => p == "/path/to/xqemu"⟩ ⟨defaultSettings⟩ ⟨[], []⟩
      = (⟨none⟩, ⟨[], []⟩, some "File /path/to/xqemu could not be found!")
    ∧ (check_path ⟨fun _ => true, fun p => p == "/path/to/xqemu"⟩ "/path/to/mcpx.bin" = .ok ()
        ↔ (⟨fun _ => true, fun p => p == "/path/to/xqemu"⟩ : FileSystem).pathExists "/path/to/mcpx.bin" = true
          ∧ (⟨fun _ => true, fun p => p == "/path/to/xqemu"⟩ : FileSystem).isdir "/path/to/mcpx.bin" = false) :=
  start_rejects_directory ⟨none⟩ ⟨fun _ => true, fun p => p == "/path/to/xqemu"⟩
    ⟨defaultSettings⟩ ⟨[], []⟩ ⟨fun _ => true, fun p => p == "/path/to/xqemu"⟩
    "/path/to/mcpx.bin" rfl rfl

/-- C3: when no disc is present, `start` is insensitive to the optical disc
path: its outcome depends on the filesystem only through the four required
paths (so whether `dvd_path` exists cannot matter), and replacing the
`dvd_path` field outright changes nothing either. -/
theorem start_ignores_dvd_path_when_absent (x : Xqemu) (fs1 fs2 : FileSystem)
    (sm : SettingsManager) (w : World) (p' : String)
    (hdvd : sm.settings.dvd_present = false)
    (e1 : fs2.pathExists sm.settings.xqemu_path = fs1.pathExists sm.settings.xqemu_path)
    (d1 : fs2.isdir sm.settings.xqemu_path = fs1.isdir sm.settings.xqemu_path)
    (e2 : fs2.pathExists sm.settings.mcpx_path = fs1.pathExists sm.settings.mcpx_path)
    (d2 : fs2.isdir sm.settings.mcpx_path = fs1.isdir sm.settings.mcpx_path)
    (e3 : fs2.pathExists sm.settings.flash_path = fs1.pathExists sm.settings.flash_path)
    (d3 : fs2.isdir sm.settings.flash_path = fs1.isdir sm.settings.flash_path)
    (e4 : fs2.pathExists sm.settings.hdd_path = fs1.pathExists sm.settings.hdd_path)
    (d4 : fs2.isdir sm.settings.hdd_path = fs1.isdir sm.settings.hdd_path) :
    runStart x fs2 sm w = runStart x fs1 sm w
    ∧ runStart x fs1 ⟨{ sm.settings with dvd_path := p' }⟩ w = runStart x fs1 sm w := by
  have hcheck : ∀ (p : String), fs2.pathExists p = fs1.pathExists p →
      fs2.isdir p = fs1.isdir p → check_path fs2 p = check_path fs1 p := by
    intro p he hd
    simp [check_path, he, hd]
  constructor
  · have hv : validateAndBuild fs2 sm.settings = validateAndBuild fs1 sm.settings := by
      simp [validateAndBuild, hcheck _ e1 d1, hcheck _ e2 d2, hcheck _ e3 d3,
        hcheck _ e4 d4, hdvd]
    simp [runStart, Xqemu.start, hv]
  · have hv : validateAndBuild fs1 { sm.settings with dvd_path := p' }
        = validateAndBuild fs1 sm.settings := by
      simp [validateAndBuild, hdvd]
    simp [runStart, Xqemu.start, hv]

theorem start_ignores_dvd_path_when_absent_witness :
    runStart ⟨none⟩ ⟨fun p => !(p == "/path/to/disc.iso"), fun _ => false⟩
        ⟨{ defaultSettings with dvd_present := false }⟩ ⟨[], []⟩
      = runStart ⟨none⟩ ⟨fun _ => true, fun _ => false⟩
          ⟨{ defaultSettings with dvd_present := false }⟩ ⟨[], []⟩
    ∧ runStart ⟨none⟩ ⟨fun _ => true, fun _ => false⟩
        ⟨{ { defaultSettings with dvd_present := false } with dvd_path := "/elsewhere.iso" }⟩ ⟨[], []⟩
      = runStart ⟨none⟩ ⟨fun _ => true, fun _ => false⟩
          ⟨{ defaultSettings with dvd_present := false }⟩ ⟨[], []⟩ :=
  start_ignores_dvd_path_when_absent ⟨none⟩ ⟨fun _ => true, fun _ => false⟩
    ⟨fun p => !(p == "/path/to/disc.iso"), fun _ => false⟩
    ⟨{ defaultSettings with dvd_present := false }⟩ ⟨[], []⟩ "/elsewhere.iso"
    rfl rfl rfl rfl rfl rfl rfl rfl rfl

/-- C1: for every configuration whose four required paths pass validation,
with no disc present and the short boot animation enabled, the run action
spawns exactly the split of the command whose bootrom option carries the
`,short_animation` suffix and whose disc argument is empty; some argv element
ends in `,short_animation`, and the final argv element is the secondary drive
declared as `index=1,media=cdrom` with no attached file. -/
theorem start_short_animation_cmdline (x : Xqemu) (fs : FileSystem) (sm : SettingsManager)
    (w : World)
    (h1 : check_path fs sm.settings.xqemu_path = .ok ())
    (h2 : check_path fs sm.settings.mcpx_path = .ok ())
    (h3 : check_path fs sm.settings.flash_path = .ok ())
    (h4 : check_path fs sm.settings.hdd_path = .ok ())
    (hdvd : sm.settings.dvd_present = false)
    (hanim : sm.settings.short_anim = true) :
    runStart x fs sm w
      = (⟨some w.spawned.length⟩,
         { w with spawned := w.spawned ++
             [pySplit (buildCmd sm.settings.xqemu_path sm.settings.mcpx_path ",short_animation"
                 sm.settings.flash_path sm.settings.hdd_path "")] },
         none)
    ∧ (∃ a ∈ pySplit (buildCmd sm.settings.xqemu_path sm.settings.mcpx_path ",short_animation"
          sm.settings.flash_path sm.settings.hdd_path ""),
        (",short_animation").toList <:+ a.toList)
    ∧ (pySplit (buildCmd sm.settings.xqemu_path sm.settings.mcpx_path ",short_animation"
          sm.settings.flash_path sm.settings.hdd_path "")).getLast?
        = some "index=1,media=cdrom" := by
  refine ⟨?_, shortAnim_mem_pySplit_buildCmd _ _ _ _ _, getLast?_pySplit_buildCmd _ _ _ _ _⟩
  have hv : validateAndBuild fs sm.settings
      = .ok (buildCmd sm.settings.xqemu_path sm.settings.mcpx_path ",short_animation"
          sm.settings.flash_path sm.settings.hdd_path "") := by
    simp [validateAndBuild, h1, h2, h3, h4, hdvd, hanim]
  simp [runStart, Xqemu.start, hv, popen]

theorem start_short_animation_cmdline_witness :
    runStart ⟨none⟩ ⟨fun _ => true, fun _ => false⟩
        ⟨{ defaultSettings with dvd_present := false, short_anim := true }⟩ ⟨[], []⟩
      = (⟨some 0⟩,
         ⟨[pySplit (buildCmd "/path/to/xqemu" "/path/to/mcpx.bin" ",short_animation"
             "/path/to/flash.bin" "/path/to/hdd.img" "")], []⟩, none) :=
  (start_short_animation_cmdline ⟨none⟩ ⟨fun _ => true, fun _ => false⟩
    ⟨{ defaultSettings with dvd_present := false, short_anim := true }⟩ ⟨[], []⟩
    rfl rfl rfl rfl rfl rfl).1

/-- C5: whenever the run action returns without an error, the controller
reports running; after a subsequent `stop` it reports not running; and
`isRunning` is exactly the presence of the retained handle (by its type it
never consults the world, hence no OS-level liveness). -/
theorem isRunning_start_stop (x x' : Xqemu) (fs : FileSystem) (sm : SettingsManager)
    (w w' : World) (h : runStart x fs sm w = (x', w', none)) :
    x'.isRunning = true
    ∧ ((Xqemu.stop x' w').1).isRunning = false
    ∧ x'.isRunning = x'._p.isSome := by
  unfold runStart Xqemu.start at h
  cases hv : validateAndBuild fs sm.settings with
  | error e =>
      rw [hv] at h
      simp at h
  | ok cmd =>
      rw [hv] at h
      simp only [popen] at h
      have hx : x' = ⟨some w.spawned.length⟩ := by
        have hfst := congrArg (fun t => t.1) h
        simpa using hfst.symm
      subst hx
      exact ⟨rfl, rfl, rfl⟩

theorem isRunning_start_stop_witness :
    Xqemu.isRunning ⟨some 0⟩ = true
    ∧ ((Xqemu.stop ⟨some 0⟩ ⟨[pySplit (buildCmd "/path/to/xqemu" "/path/to/mcpx.bin" ""
          "/path/to/flash.bin" "/path/to/hdd.img" (",file=" ++ "/path/to/disc.iso"))],
          []⟩).1).isRunning = false
    ∧ Xqemu.isRunning ⟨some 0⟩ = (some 0 : Option Nat).isSome :=
  isRunning_start_stop ⟨none⟩ ⟨some 0⟩ ⟨fun _ => true, fun _ => false⟩ ⟨defaultSettings⟩
    ⟨[], []⟩ ⟨[pySplit (buildCmd "/path/to/xqemu" "/path/to/mcpx.bin" ""
      "/path/to/flash.bin" "/path/to/hdd.img" (",file=" ++ "/path/to/disc.iso"))], []⟩ rfl

/-- C6: a successful `start` issued while a handle is already retained is not
rejected: it spawns a second process, overwrites the retained handle with the
fresh one (which differs from the old handle), and a subsequent `stop`
terminates only the new process — the old one can no longer be stopped
through the controller. -/
theorem start_while_active_overwrites_handle (x x' : Xqemu) (fs : FileSystem)
    (sm : SettingsManager) (w w' : World) (h0 : Nat)
    (_hactive : x._p = some h0) (hprev : h0 < w.spawned.length)
    (h : runStart x fs sm w = (x', w', none)) :
    w'.spawned.length = w.spawned.length + 1
    ∧ x'._p = some w.spawned.length
    ∧ x'._p ≠ some h0
    ∧ (Xqemu.stop x' w').2.terminated = w'.terminated ++ [w.spawned.length] := by
  unfold runStart Xqemu.start at h
  cases hv : validateAndBuild fs sm.settings with
  | error e =>
      rw [hv] at h
      simp at h
  | ok cmd =>
      rw [hv] at h
      simp only [popen] at h
      have hx : x' = ⟨some w.spawned.length⟩ := by
        have hfst := congrArg (fun t => t.1) h
        simpa using hfst.symm
      have hw : w' = { w with spawned := w.spawned ++ [pySplit cmd] } := by
        have hsnd := congrArg (fun t => t.2.1) h
        simpa using hsnd.symm
      subst hx
      subst hw
      refine ⟨by simp, rfl, ?_, rfl⟩
      intro hc
      have hlen : w.spawned.length = h0 := by simpa using hc
      omega

theorem start_while_active_overwrites_handle_witness :
    (⟨some 1⟩ : Xqemu)._p ≠ some 0 :=
  (start_while_active_overwrites_handle ⟨some 0⟩ ⟨some 1⟩ ⟨fun _ => true, fun _ => false⟩
    ⟨defaultSettings⟩ ⟨[["old"]], []⟩
    ⟨[["old"], pySplit (buildCmd "/path/to/xqemu" "/path/to/mcpx.bin" "" "/path/to/flash.bin"
        "/path/to/hdd.img" (",file=" ++ "/path/to/disc.iso"))], []⟩
    0 rfl (by decide) rfl).2.2.1
